import Mathlib

set_option autoImplicit false

/-!
Verification of the onsite-shop checkout/order reconciliation core.

The development shallowly embeds:
  * the client cart store (lib/store/cart.ts): cart items, totals
    computation with the free-shipping rule, and the mutating actions;
  * the relational state touched by the API routes: the orders and
    order_items tables from the Supabase schema;
  * the checkout route (app/api/checkout/route.ts): order-number
    generation, pending-order insertion, Stripe session parameters and
    the HTTP response;
  * the webhook route (the full Stripe webhook handler): signature
    verification, the checkout.session.completed branch (existing-order
    update, fallback order creation, order-item materialization) and the
    payment_intent.payment_failed branch.

Monetary values are embedded as rationals; JavaScript Math.round is
embedded as the exact round-half-up on rationals.  Timestamps are
naturals.  The external Stripe library calls (signature construction,
session creation) are modelled symbolically: signature verification
succeeds exactly when the header was produced with the same secret over
the same raw body, and the session-creation result is a parameter of the
handler.  Database writes can be made to fail through explicit fault
flags so that the error-handling paths of the handlers are reachable.
-/

namespace OnsiteShop

/-! ## JavaScript coercion helpers -/

/-- Model of the JavaScript expression `x || 1` for an optional numeric
argument: `undefined` and `0` are falsy and replaced by `1`. -/
def jsOr1 (q : Option ℚ) : ℚ :=
  match q with
  | some x => if x = 0 then 1 else x
  | none => 1

/-- Model of the JavaScript expression `s || null` for an optional string:
`undefined` and the empty string collapse to `null`. -/
def jsOrNullOpt (s : Option String) : Option String :=
  match s with
  | some x => if x = "" then none else some x
  | none => none

/-- Truthiness of an optional environment/string value: absent or empty
strings are falsy. -/
def jsFalsyStr (s : Option String) : Bool :=
  match s with
  | some x => x = ""
  | none => true

/-- Model of JavaScript String.prototype.startsWith (computably, on the
character lists). -/
def jsStartsWith (s p : String) : Bool := p.data.isPrefixOf s.data

/-- Model of JavaScript `a || b` on two nullable object values. -/
def jsOrElse {α : Type*} (a b : Option α) : Option α :=
  match a with
  | some x => some x
  | none => b

/-- Model of JavaScript `Math.round`: round half toward positive
infinity (computably, via the rational floor). -/
def jsRound (q : ℚ) : ℤ := Rat.floor (q + 1 / 2)

/-- jsRound is the mathematical floor of q + 1/2. -/
theorem jsRound_eq_floor (q : ℚ) : jsRound q = ⌊q + 1 / 2⌋ :=
  (Rat.floor_def' _).trans Rat.floor_def.symm

/-! ## Cart store (lib/store/cart.ts) -/

/-- One cart entry, as held by the zustand store. -/
structure CartItem where
  product_id : String
  variant_id : String
  name : String
  color : String
  size : String
  price : ℚ
  quantity : ℚ
  image : String
deriving DecidableEq

/-- The cart state: entries plus the three persisted totals. -/
structure CartState where
  items : List CartItem
  subtotal : ℚ
  shipping : ℚ
  total : ℚ
deriving DecidableEq

/-- FREE_SHIPPING_THRESHOLD constant. -/
def FREE_SHIPPING_THRESHOLD : ℚ := 50

/-- SHIPPING_COST constant. -/
def SHIPPING_COST : ℚ := 9.99

/-- Rounding to two decimals as the store does it:
Math.round(x * 100) / 100. -/
def round2 (q : ℚ) : ℚ := (jsRound (q * 100) : ℚ) / 100

/-- The raw subtotal reduction inside calculateTotals:
items.reduce((sum, item) => sum + item.price * item.quantity, 0). -/
def cartSubtotalRaw (items : List CartItem) : ℚ :=
  items.foldl (fun sum item => sum + item.price * item.quantity) 0

/-- calculateTotals from the cart store. -/
def calculateTotals (items : List CartItem) : CartState :=
  let subtotal := cartSubtotalRaw items
  let shipping := if FREE_SHIPPING_THRESHOLD ≤ subtotal then 0 else SHIPPING_COST
  let total := subtotal + shipping
  { items := items
    subtotal := round2 subtotal
    shipping := round2 shipping
    total := round2 total }

/-- Argument of addItem: a cart item whose quantity may be omitted. -/
structure AddItemInput where
  product_id : String
  variant_id : String
  name : String
  color : String
  size : String
  price : ℚ
  quantity : Option ℚ
  image : String
deriving DecidableEq

/-- JavaScript Array.prototype.findIndex, as an optional index. -/
def jsFindIndex {α : Type*} (p : α → Bool) : List α → Option Nat
  | [] => none
  | a :: as => if p a then some 0 else (jsFindIndex p as).map (· + 1)

/-- Index-aware map used to embed
items.map((i, idx) => idx === existingIndex ? ... : i). -/
def mapWithIndex {α : Type*} (f : Nat → α → α) : Nat → List α → List α
  | _, [] => []
  | start, a :: as => f start a :: mapWithIndex f (start + 1) as

/-- addItem from the cart store: merge into an existing entry with the
same variant_id, otherwise append, then recompute totals. -/
def addItem (state : CartState) (item : AddItemInput) : CartState :=
  match jsFindIndex (fun i => i.variant_id == item.variant_id) state.items with
  | some existingIndex =>
      calculateTotals (mapWithIndex
        (fun idx i =>
          if idx = existingIndex then
            { i with quantity := i.quantity + jsOr1 item.quantity }
          else i)
        0 state.items)
  | none =>
      calculateTotals (state.items ++
        [{ product_id := item.product_id
           variant_id := item.variant_id
           name := item.name
           color := item.color
           size := item.size
           price := item.price
           quantity := jsOr1 item.quantity
           image := item.image }])

/-- removeItem from the cart store. -/
def removeItem (state : CartState) (variant_id : String) : CartState :=
  calculateTotals (state.items.filter (fun i => i.variant_id != variant_id))

/-- updateQuantity from the cart store. -/
def updateQuantity (state : CartState) (variant_id : String) (quantity : ℚ) :
    CartState :=
  if quantity ≤ 0 then
    calculateTotals (state.items.filter (fun i => i.variant_id != variant_id))
  else
    calculateTotals (state.items.map
      (fun i => if i.variant_id == variant_id then { i with quantity := quantity } else i))

/-- clearCart from the cart store. -/
def clearCart : CartState :=
  { items := [], subtotal := 0, shipping := 0, total := 0 }

/-! ## Relational state (supabase orders / order_items tables) -/

/-- The shipping-address snapshot object the webhook stores on the order
(built from the Stripe session's shipping details). -/
structure ShipAddress where
  name : Option String
  street : Option String
  apartment : Option String
  city : Option String
  province : Option String
  postal_code : Option String
  country : Option String
deriving DecidableEq

/-- A row of the orders table, with exactly the declared columns the
routes read or write.  The schema declares no cancelled_at column, so
the payment-failed branch's update payload (which names one) is
rejected by the storage layer, see updateOrdersChecked. -/
structure OrderRow where
  id : String
  user_id : Option String
  order_number : String
  status : String
  subtotal : ℚ
  shipping : ℚ
  tax : ℚ
  total : ℚ
  shipping_address : Option ShipAddress
  stripe_session_id : Option String
  stripe_payment_intent_id : Option String
  paid_at : Option Nat
deriving DecidableEq

/-- A row of the order_items table. -/
structure OrderItemRow where
  order_id : String
  product_id : Option String
  variant_id : Option String
  product_name : String
  quantity : ℚ
  unit_price : ℚ
  total_price : ℚ
  size : Option String
  color : Option String
deriving DecidableEq

/-- The database state the two API routes touch. -/
structure DB where
  orders : List OrderRow
  order_items : List OrderItemRow
deriving DecidableEq

/-- UPDATE orders SET ... WHERE id = oid.  The Supabase update succeeds
even when no row matches; it applies the changes to every matching
row. -/
def updateOrdersById (db : DB) (oid : String) (f : OrderRow → OrderRow) : DB :=
  { db with orders := db.orders.map (fun o => if o.id = oid then f o else o) }

/-- The columns the orders table declares (CREATE TABLE orders in the
schema; the migration file declares the same set plus
shipping_address_id).  There is no cancelled_at column. -/
def ordersTableColumns : List String :=
  ["id", "user_id", "order_number", "status", "subtotal", "shipping", "tax",
   "total", "shipping_address", "stripe_session_id",
   "stripe_payment_intent_id", "notes", "paid_at", "shipped_at",
   "delivered_at", "created_at", "updated_at"]

/-- UPDATE orders SET ... WHERE id = oid with the payload's column names
made explicit: PostgREST rejects the whole statement (error PGRST204)
when the payload names a column the table does not declare, and then no
row is touched.  f is the effect of the payload on the declared
columns.  (The completed-session branch's update payload names only
declared columns, so it is embedded directly as updateOrdersById.) -/
def updateOrdersChecked (payload : List String) (db : DB) (oid : String)
    (f : OrderRow → OrderRow) : Except String DB :=
  if payload.all (fun c => ordersTableColumns.contains c) then
    Except.ok (updateOrdersById db oid f)
  else
    Except.error "PGRST204: could not find column in schema cache"

/-- INSERT INTO orders.  The schema declares id as primary key and
order_number UNIQUE, so a duplicate on either is rejected with an
error and the table is unchanged. -/
def insertOrder (db : DB) (o : OrderRow) : Except String DB :=
  if db.orders.any (fun x => x.id == o.id || x.order_number == o.order_number) then
    Except.error "duplicate key value violates unique constraint"
  else
    Except.ok { db with orders := db.orders ++ [o] }

/-- INSERT INTO order_items.  The schema puts no uniqueness constraint on
(order_id, variant_id), so the insert always appends. -/
def insertOrderItems (db : DB) (rows : List OrderItemRow) : DB :=
  { db with order_items := db.order_items ++ rows }

/-- Injected persistence faults: each flag makes the corresponding
database write fail (the Supabase client reports an error object). -/
structure DbFaults where
  update_order : Bool
  insert_order : Bool
  insert_items : Bool
  update_cancel : Bool
deriving DecidableEq

/-- A fault-free database. -/
def noFaults : DbFaults := ⟨false, false, false, false⟩

/-! ## Stripe event model -/

/-- An item of the serialized cart carried in the session metadata
(metadata.items, JSON). -/
structure MetaItem where
  product_id : Option String
  variant_id : Option String
  name : String
  quantity : ℚ
  price : ℚ
  size : Option String
  color : Option String
deriving DecidableEq

/-- The metadata bundle attached to the Stripe session /
payment intent.  String-valued fields that the checkout route fills
with '' when absent are plain strings; the handler tests them for
truthiness. -/
structure Metadata where
  type : Option String
  order_id : String
  order_number : String
  user_id : String
  items : Option (List MetaItem)
deriving DecidableEq

/-- Stripe's address object inside shipping details. -/
structure StripeAddress where
  line1 : Option String
  line2 : Option String
  city : Option String
  state : Option String
  postal_code : Option String
  country : Option String
deriving DecidableEq

/-- Stripe shipping details: a name plus an address. -/
structure ShippingDetails where
  name : Option String
  address : Option StripeAddress
deriving DecidableEq

/-- The collected_information object of newer Stripe API versions. -/
structure CollectedInformation where
  shipping_details : Option ShippingDetails
deriving DecidableEq

/-- The parts of a Stripe Checkout Session the webhook reads. -/
structure CheckoutSession where
  id : String
  payment_intent : Option String
  amount_total : Option ℚ
  collected_information : Option CollectedInformation
  shipping_details : Option ShippingDetails
  metadata : Option Metadata
deriving DecidableEq

/-- The parts of a Stripe PaymentIntent the webhook reads. -/
structure PaymentIntentObj where
  metadata : Option Metadata
deriving DecidableEq

/-- A Stripe event, discriminated on event.type. -/
inductive StripeEvent where
  | checkoutSessionCompleted (session : CheckoutSession)
  | paymentIntentPaymentFailed (payment_intent : PaymentIntentObj)
  | otherEvent (t : String)
deriving DecidableEq

/-- The raw request body: either the canonical JSON of an event, or an
unparseable byte string. -/
inductive RawBody where
  | valid (event : StripeEvent)
  | malformed (s : String)
deriving DecidableEq

/-- Symbolic model of the stripe-signature header: it records which
secret signed which raw body.  This is the perfect-MAC abstraction of
Stripe's HMAC scheme. -/
structure StripeSignature where
  signed_secret : String
  signed_body : RawBody
deriving DecidableEq

/-- Model of stripe.webhooks.constructEvent: verification succeeds
exactly when the header was computed with the verifier's secret over the
very body received; the body must then parse as an event.  Any failure
throws (here: returns an error). -/
def constructEvent (body : RawBody) (sig : StripeSignature) (secret : String) :
    Except String StripeEvent :=
  if sig.signed_secret = secret ∧ sig.signed_body = body then
    match body with
    | RawBody.valid e => Except.ok e
    | RawBody.malformed _ => Except.error "Unexpected token in JSON"
  else
    Except.error "signature mismatch"

/-- Environment variables read by the two routes. -/
structure Env where
  STRIPE_SECRET_KEY : Option String
  STRIPE_WEBHOOK_SECRET : Option String
  NEXT_PUBLIC_SUPABASE_URL : Option String
  SUPABASE_SERVICE_ROLE_KEY : Option String
  NEXT_PUBLIC_SUPABASE_ANON_KEY : Option String
deriving DecidableEq

/-! ## Webhook route (app/api/webhook/route.ts) -/

namespace Webhook

/-- The JSON body of the webhook response. -/
inductive RespBody where
  | received
  | errMsg (msg : String)
deriving DecidableEq

/-- The webhook HTTP response. -/
structure Response where
  status : Nat
  body : RespBody
deriving DecidableEq

/-- The shipping-address snapshot the completed-session branch builds:
(session.collected_information?.shipping_details || session.shipping_details),
then a field-by-field copy when an address is present. -/
def shippingAddressOf (session : CheckoutSession) : Option ShipAddress :=
  let shippingDetails :=
    jsOrElse
      (match session.collected_information with
       | some ci => ci.shipping_details
       | none => none)
      session.shipping_details
  match shippingDetails with
  | some sd =>
      match sd.address with
      | some a =>
          some { name := sd.name
                 street := a.line1
                 apartment := jsOrNullOpt a.line2
                 city := a.city
                 province := a.state
                 postal_code := a.postal_code
                 country := a.country }
      | none => none
  | none => none

/-- The order_items rows built from the metadata's item list (the same
map is written twice in the handler, once for the fallback order and
once for an existing order). -/
def itemRowsFor (oid : String) (items : List MetaItem) : List OrderItemRow :=
  items.map (fun item =>
    { order_id := oid
      product_id := jsOrNullOpt item.product_id
      variant_id := jsOrNullOpt item.variant_id
      product_name := item.name
      quantity := item.quantity
      unit_price := item.price
      total_price := item.price * item.quantity
      size := jsOrNullOpt item.size
      color := jsOrNullOpt item.color })

/-- The update applied to an existing order by the completed-session
branch: unconditional SET keyed only on the id. -/
def paidUpdate (session : CheckoutSession) (now : Nat) (o : OrderRow) : OrderRow :=
  { o with
    status := "paid"
    paid_at := some now
    stripe_session_id := some session.id
    stripe_payment_intent_id := session.payment_intent
    shipping_address := shippingAddressOf session }

/-- The raw subtotal the fallback branch computes from the metadata
items: items.reduce((sum, item) => sum + item.price * item.quantity, 0). -/
def metaSubtotal (items : List MetaItem) : ℚ :=
  items.foldl (fun sum item => sum + item.price * item.quantity) 0

/-- The fallback order row inserted when the metadata carries no order
id (order persisted directly as paid). -/
def fallbackOrder (session : CheckoutSession) (metadata : Metadata) (now : Nat)
    (new_order_id : String) : OrderRow :=
  let items := metadata.items.getD []
  let subtotal := metaSubtotal items
  let shipping :=
    match session.amount_total with
    | some a => if a = 0 then 0 else a / 100 - subtotal
    | none => 0
  { id := new_order_id
    user_id := if metadata.user_id = "" then none else some metadata.user_id
    order_number := metadata.order_number
    status := "paid"
    subtotal := subtotal
    shipping := if 0 < shipping then shipping else 0
    tax := 0
    total :=
      match session.amount_total with
      | some a => if a = 0 then subtotal else a / 100
      | none => subtotal
    shipping_address := shippingAddressOf session
    stripe_session_id := some session.id
    stripe_payment_intent_id := session.payment_intent
    paid_at := some now }

/-- The checkout.session.completed branch of the handler.  Returns the
early response of the successful fallback path (if taken) and the new
database state.  Database errors are only logged: the branch always
falls through to the final 200 unless the fallback insert succeeded and
returned early. -/
def handleCompleted (event : StripeEvent) (now : Nat) (new_order_id : String)
    (faults : DbFaults) (db : DB) : Option Response × DB :=
  match event with
  | StripeEvent.checkoutSessionCompleted session =>
      match session.metadata with
      | some metadata =>
          if metadata.type = some "shop_order" then
            let orderId := metadata.order_id
            if orderId ≠ "" then
              -- update existing order; updateError is only logged
              let db1 :=
                if faults.update_order then db
                else updateOrdersById db orderId (paidUpdate session now)
              -- create order items for existing order; itemsError only logged
              let db2 :=
                match metadata.items with
                | some items =>
                    if faults.insert_items then db1
                    else insertOrderItems db1 (itemRowsFor orderId items)
                | none => db1
              (none, db2)
            else
              -- create order if it does not exist (fallback)
              let newOrder := fallbackOrder session metadata now new_order_id
              match
                (if faults.insert_order then Except.error "insert fault"
                 else insertOrder db newOrder : Except String DB) with
              | Except.error _ =>
                  -- createError only logged; metadata.order_id is empty so the
                  -- existing-order item block below is skipped
                  (none, db)
              | Except.ok dbIns =>
                  let db2 :=
                    match metadata.items with
                    | some items =>
                        if faults.insert_items then dbIns
                        else insertOrderItems dbIns (itemRowsFor new_order_id items)
                    | none => dbIns
                  -- early return NextResponse.json({ received: true })
                  (some { status := 200, body := RespBody.received }, db2)
          else (none, db)
      | none => (none, db)
  | _ => (none, db)

/-- The column names of the payment-failed branch's update payload:
{ status: 'cancelled', cancelled_at: new Date().toISOString() }.  The
cancelled_at column is not declared by the orders table. -/
def cancelPayloadColumns : List String := ["status", "cancelled_at"]

/-- The payment_intent.payment_failed branch of the handler: an UPDATE
keyed only on the metadata's order id, whose payload however names the
undeclared cancelled_at column — the storage layer rejects it
(PGRST204) and the handler only logs the error, so no row ever
changes.  (On the declared columns the payload would set status to
cancelled.) -/
def handleFailed (event : StripeEvent) (now : Nat) (faults : DbFaults)
    (db : DB) : DB :=
  match event with
  | StripeEvent.paymentIntentPaymentFailed paymentIntent =>
      match paymentIntent.metadata with
      | some metadata =>
          if metadata.type = some "shop_order" ∧ metadata.order_id ≠ "" then
            if faults.update_cancel then db
            else
              match updateOrdersChecked cancelPayloadColumns db
                  metadata.order_id
                  (fun o => { o with status := "cancelled" }) with
              | Except.ok db2 => db2
              | Except.error _ => db   -- error only console.error-ed
          else db
      | none => db
  | _ => db

/-- The event dispatch after successful verification: the completed
branch (with its possible early return), then the failed branch, then
the final 200 acknowledgement. -/
def handleVerified (event : StripeEvent) (now : Nat) (new_order_id : String)
    (faults : DbFaults) (db : DB) : Response × DB :=
  match handleCompleted event now new_order_id faults db with
  | (some resp, db1) => (resp, db1)
  | (none, db1) =>
      let db2 := handleFailed event now faults db1
      ({ status := 200, body := RespBody.received }, db2)

/-- The webhook POST handler: environment validation, signature-header
presence, signature verification, then event dispatch.  now is the
delivery timestamp (new Date()), new_order_id the id the database would
generate for a fallback insert. -/
def POST (env : Env) (body : RawBody) (signature : Option StripeSignature)
    (now : Nat) (new_order_id : String) (faults : DbFaults) (db : DB) :
    Response × DB :=
  if jsFalsyStr env.STRIPE_SECRET_KEY || jsFalsyStr env.STRIPE_WEBHOOK_SECRET then
    ({ status := 500, body := RespBody.errMsg "Server configuration error" }, db)
  else if jsFalsyStr env.NEXT_PUBLIC_SUPABASE_URL
      || jsFalsyStr env.SUPABASE_SERVICE_ROLE_KEY then
    ({ status := 500, body := RespBody.errMsg "Server configuration error" }, db)
  else
    match signature with
    | none => ({ status := 400, body := RespBody.errMsg "Missing signature" }, db)
    | some sig =>
        match constructEvent body sig (env.STRIPE_WEBHOOK_SECRET.getD "") with
        | Except.error _ =>
            ({ status := 400, body := RespBody.errMsg "Invalid signature" }, db)
        | Except.ok event => handleVerified event now new_order_id faults db

/-- The database after one fault-free delivery of a fixed body and
signature at time t (used to iterate re-deliveries of one logical
event). -/
def replayStep (env : Env) (body : RawBody) (signature : Option StripeSignature)
    (nid : String) (db : DB) (t : Nat) : DB :=
  (POST env body signature t nid noFaults db).2

end Webhook

/-! ## Checkout route (app/api/checkout/route.ts) -/

namespace Checkout

/-- Digit list of n in base 36, most significant first (the digit list
underlying JavaScript Number.prototype.toString(36)). -/
def toBase36 (n : Nat) : List Nat :=
  if n < 36 then [n]
  else toBase36 (n / 36) ++ [n % 36]
decreasing_by
  simp_wf
  exact Nat.div_lt_self (by omega) (by omega)

/-- One base-36 digit as an uppercase character (toString(36) produces
lowercase digits which toUpperCase maps to these). -/
def base36Char (d : Nat) : Char :=
  if d < 10 then Char.ofNat (48 + d) else Char.ofNat (55 + d)

/-- Order-number generation:
OS-dollar-brace Date.now().toString(36).toUpperCase() — a pure function
of the request's millisecond timestamp. -/
def generateOrderNumber (nowMs : Nat) : String :=
  "OS-" ++ String.mk ((toBase36 nowMs).map base36Char)

/-- One item of the checkout request body. -/
structure RequestItem where
  product_id : Option String
  variant_id : Option String
  name : String
  color : Option String
  size : Option String
  price : ℚ
  quantity : ℚ
  image : Option String
deriving DecidableEq

/-- The parsed checkout request body
{ items, subtotal, shipping, total }. -/
structure RequestBody where
  items : Option (List RequestItem)
  subtotal : ℚ
  shipping : ℚ
  total : ℚ
deriving DecidableEq

/-- The authenticated Supabase user, when logged in. -/
structure User where
  id : String
  email : Option String
deriving DecidableEq

/-- One Stripe line item as the route builds it. -/
structure LineItem where
  name : String
  description : Option String
  images : Option (List String)
  unit_amount : ℤ
  quantity : ℚ
deriving DecidableEq

/-- The line item for one cart entry: description only when both color
and size are truthy, images only for http URLs, unit_amount in rounded
cents. -/
def lineItemOf (item : RequestItem) : LineItem :=
  { name := item.name
    description :=
      match jsOrNullOpt item.color, jsOrNullOpt item.size with
      | some c, some s => some (c ++ " - " ++ s)
      | _, _ => none
    images :=
      match item.image with
      | some img => if img.startsWith "http" then some [img] else none
      | none => none
    unit_amount := jsRound (item.price * 100)
    quantity := item.quantity }

/-- The extra Shipping line item added when shipping > 0. -/
def shippingLineItem (shipping : ℚ) : LineItem :=
  { name := "Shipping"
    description := some "Standard delivery to Canada"
    images := none
    unit_amount := jsRound (shipping * 100)
    quantity := 1 }

/-- The compact metadata item the route serializes into
metadata.items. -/
def toMetaItem (i : RequestItem) : MetaItem :=
  { product_id := i.product_id
    variant_id := i.variant_id
    name := i.name
    quantity := i.quantity
    price := i.price
    size := i.size
    color := i.color }

/-- The arguments of stripe.checkout.sessions.create that the claims
are about. -/
structure SessionCreateParams where
  line_items : List LineItem
  customer_email : Option String
  metadata : Metadata
deriving DecidableEq

/-- The Stripe session object the external call returns. -/
structure SessionObj where
  id : String
  url : Option String
deriving DecidableEq

/-- The JSON body of the checkout response: the success payload carries
only the session url and the session id. -/
inductive RespBody where
  | success (url : Option String) (sessionId : String)
  | failure (error : String)
deriving DecidableEq

/-- The checkout HTTP response. -/
structure Response where
  status : Nat
  body : RespBody
deriving DecidableEq

/-- The Supabase-configured test of the route. -/
def isSupabaseConfigured (env : Env) : Bool :=
  !jsFalsyStr env.NEXT_PUBLIC_SUPABASE_URL
    && !jsFalsyStr env.NEXT_PUBLIC_SUPABASE_ANON_KEY
    && env.NEXT_PUBLIC_SUPABASE_URL != some "sua_url_aqui"
    && jsStartsWith (env.NEXT_PUBLIC_SUPABASE_URL.getD "") "http"

/-- The pending order row the route inserts. -/
def pendingOrder (new_order_id : String) (user : Option User)
    (orderNumber : String) (req : RequestBody) : OrderRow :=
  { id := new_order_id
    user_id := user.map (fun u => u.id)
    order_number := orderNumber
    status := "pending"
    subtotal := req.subtotal
    shipping := req.shipping
    tax := 0
    total := req.total
    shipping_address := none
    stripe_session_id := none
    stripe_payment_intent_id := none
    paid_at := none }

/-- The checkout POST handler.  reqJson is the result of
request.json() (an exception is caught by the surrounding try).  user is
the Supabase auth result, nowMs the value of Date.now(), new_order_id
the id the database would generate, order_insert_fault an injected
persistence failure, and sessionResult the outcome of the external
stripe.checkout.sessions.create call.  Besides the response and the
database, the model returns the session-creation parameters (if the
route reached that call). -/
def POST (env : Env) (reqJson : Except String RequestBody) (user : Option User)
    (nowMs : Nat) (new_order_id : String) (order_insert_fault : Bool)
    (sessionResult : Except String SessionObj) (db : DB) :
    Response × DB × Option SessionCreateParams :=
  if jsFalsyStr env.STRIPE_SECRET_KEY
      || env.STRIPE_SECRET_KEY == some "sua_sk_key_aqui" then
    ({ status := 500
       body := RespBody.failure
         "Stripe não configurado. Adicione STRIPE_SECRET_KEY no .env.local" },
     db, none)
  else
    match reqJson with
    | Except.error msg => ({ status := 500, body := RespBody.failure msg }, db, none)
    | Except.ok req =>
        match req.items with
        | none =>
            ({ status := 400, body := RespBody.failure "Carrinho vazio" }, db, none)
        | some items =>
            if items.length = 0 then
              ({ status := 400, body := RespBody.failure "Carrinho vazio" }, db, none)
            else
              let orderNumber := generateOrderNumber nowMs
              -- user and order stay null unless Supabase is configured
              let userOrder :=
                if isSupabaseConfigured env then
                  match
                    (if order_insert_fault then Except.error "insert fault"
                     else insertOrder db
                       (pendingOrder new_order_id user orderNumber req)
                     : Except String DB) with
                  | Except.error _ => (user, none, db)   -- continue without order
                  | Except.ok db2 => (user, some new_order_id, db2)
                else (none, none, db)
              match userOrder with
              | (user1, orderId, db1) =>
                  let lineItems :=
                    items.map lineItemOf ++
                      (if 0 < req.shipping then [shippingLineItem req.shipping] else [])
                  let params : SessionCreateParams :=
                    { line_items := lineItems
                      customer_email := jsOrNullOpt (user1.bind (fun u => u.email))
                      metadata :=
                        { type := some "shop_order"
                          order_id := orderId.getD ""
                          order_number := orderNumber
                          user_id := (user1.map (fun u => u.id)).getD ""
                          items := some (items.map toMetaItem) } }
                  match sessionResult with
                  | Except.error msg =>
                      ({ status := 500, body := RespBody.failure msg }, db1, some params)
                  | Except.ok session =>
                      ({ status := 200, body := RespBody.success session.url session.id },
                       db1, some params)

end Checkout

/-! ## Sample fixtures used by witnesses and counterexamples -/

/-- A one-size-fits-all cart item with the given price. -/
def boundaryItem (p : ℚ) : CartItem :=
  { product_id := "p1", variant_id := "v1", name := "Hoodie", color := "Black"
    size := "M", price := p, quantity := 1, image := "img" }

/-- A second cart item on a different variant. -/
def secondItem : CartItem :=
  { product_id := "p2", variant_id := "v2", name := "Cap", color := "Red"
    size := "S", price := 20, quantity := 2, image := "img2" }

/-- A two-entry cart state. -/
def sampleState : CartState :=
  { items := [boundaryItem 30, secondItem], subtotal := 70, shipping := 0, total := 70 }

/-- An addItem argument hitting the variant of the first entry but
carrying different name, color, size, price and image. -/
def sampleAdd : AddItemInput :=
  { product_id := "px", variant_id := "v1", name := "Renamed", color := "Blue"
    size := "L", price := 99, quantity := some 1, image := "zz" }

/-- A fully configured environment. -/
def sampleEnv : Env :=
  { STRIPE_SECRET_KEY := some "sk_live_1"
    STRIPE_WEBHOOK_SECRET := some "whsec_1"
    NEXT_PUBLIC_SUPABASE_URL := some "https://x.supabase.co"
    SUPABASE_SERVICE_ROLE_KEY := some "srk_1"
    NEXT_PUBLIC_SUPABASE_ANON_KEY := some "anon_1" }

/-- One metadata cart item. -/
def sampleMetaItem : MetaItem :=
  { product_id := some "p1", variant_id := some "v1", name := "Hoodie"
    quantity := 2, price := 30, size := some "M", color := some "Black" }

/-- Metadata referencing order o1. -/
def sampleMetadata : Metadata :=
  { type := some "shop_order", order_id := "o1", order_number := "OS-1"
    user_id := "u1", items := some [sampleMetaItem] }

/-- A completed checkout session carrying sampleMetadata. -/
def sampleSession : CheckoutSession :=
  { id := "cs_1", payment_intent := some "pi_1", amount_total := some 6000
    collected_information := none, shipping_details := none
    metadata := some sampleMetadata }

/-- The corresponding checkout.session.completed event, raw body and
valid signature header. -/
def sampleEvent : StripeEvent := StripeEvent.checkoutSessionCompleted sampleSession

/-- Raw body of sampleEvent. -/
def sampleBody : RawBody := RawBody.valid sampleEvent

/-- A signature computed with the right secret over sampleBody. -/
def sampleSig : StripeSignature :=
  { signed_secret := "whsec_1", signed_body := sampleBody }

/-- The pending order the metadata refers to. -/
def samplePendingOrder : OrderRow :=
  { id := "o1", user_id := some "u1", order_number := "OS-1", status := "pending"
    subtotal := 60, shipping := 0, tax := 0, total := 60
    shipping_address := none, stripe_session_id := none
    stripe_payment_intent_id := none, paid_at := none }

/-- A database holding just the pending order. -/
def sampleDB : DB := { orders := [samplePendingOrder], order_items := [] }

/-- The payment-failed event for the same metadata, its body and its
valid signature. -/
def sampleFailedEvent : StripeEvent :=
  StripeEvent.paymentIntentPaymentFailed { metadata := some sampleMetadata }

/-- Raw body of sampleFailedEvent. -/
def sampleFailedBody : RawBody := RawBody.valid sampleFailedEvent

/-- A signature computed with the right secret over sampleFailedBody. -/
def sampleFailedSig : StripeSignature :=
  { signed_secret := "whsec_1", signed_body := sampleFailedBody }

/-- The order o1 already paid (paid_at = 1). -/
def samplePaidOrder : OrderRow :=
  { id := "o1", user_id := some "u1", order_number := "OS-1", status := "paid"
    subtotal := 60, shipping := 0, tax := 0, total := 60
    shipping_address := none, stripe_session_id := some "cs_1"
    stripe_payment_intent_id := some "pi_1", paid_at := some 1 }

/-- A database holding just the paid order. -/
def samplePaidDB : DB := { orders := [samplePaidOrder], order_items := [] }

/-- The order o1 in a cancelled (not pending) state. -/
def sampleCancelledOrder : OrderRow :=
  { id := "o1", user_id := some "u1", order_number := "OS-1"
    status := "cancelled", subtotal := 60, shipping := 0, tax := 0, total := 60
    shipping_address := none, stripe_session_id := none
    stripe_payment_intent_id := none, paid_at := none }

/-- A database holding just the cancelled order. -/
def sampleCancelledDB : DB :=
  { orders := [sampleCancelledOrder], order_items := [] }

/-- Metadata of a session whose order row was never persisted (empty
order_id): the fallback-creation input. -/
def fallbackMetadata : Metadata :=
  { type := some "shop_order", order_id := "", order_number := "OS-2"
    user_id := "", items := some [sampleMetaItem] }

/-- The completed session carrying fallbackMetadata. -/
def fallbackSession : CheckoutSession :=
  { id := "cs_2", payment_intent := some "pi_2", amount_total := some 6999
    collected_information := none, shipping_details := none
    metadata := some fallbackMetadata }

/-- Raw body of the fallback completed event. -/
def fallbackBody : RawBody :=
  RawBody.valid (StripeEvent.checkoutSessionCompleted fallbackSession)

/-- The database after the completed event hits the cancelled order at
time 7. -/
def paidOnCancelled : DB :=
  (Webhook.POST sampleEnv sampleBody (some sampleSig) 7 "gen4" noFaults
    sampleCancelledDB).2

/-- The database after one delivery of sampleEvent at time 1. -/
def replayOnce : DB :=
  (Webhook.POST sampleEnv sampleBody (some sampleSig) 1 "gen1" noFaults sampleDB).2

/-- The database after a second delivery of the same event at time 2. -/
def replayTwice : DB :=
  (Webhook.POST sampleEnv sampleBody (some sampleSig) 2 "gen2" noFaults replayOnce).2

namespace Checkout

/-- Value of a base-36 digit list, most significant first (left inverse
of toBase36, used to prove injectivity of the order-number scheme). -/
def ofBase36 (l : List Nat) : Nat :=
  l.foldl (fun acc d => acc * 36 + d) 0

end Checkout

/-- A checkout request item. -/
def checkoutItem : Checkout.RequestItem :=
  { product_id := some "p1", variant_id := some "v1", name := "Hoodie"
    color := some "Black", size := some "M", price := 30, quantity := 1
    image := none }

/-- A second, different checkout request item. -/
def checkoutItem2 : Checkout.RequestItem :=
  { product_id := some "p2", variant_id := some "v2", name := "Cap"
    color := some "Red", size := some "S", price := 20, quantity := 2
    image := none }

/-- A checkout request body. -/
def checkoutReq : Checkout.RequestBody :=
  { items := some [checkoutItem], subtotal := 30, shipping := 9.99
    total := 39.99 }

/-- A different checkout request body (a distinct initiation call). -/
def checkoutReq2 : Checkout.RequestBody :=
  { items := some [checkoutItem2], subtotal := 40, shipping := 9.99
    total := 49.99 }

/-- An empty database. -/
def emptyDB : DB := { orders := [], order_items := [] }

/-- A Stripe session returned by the external call. -/
def sessA : Checkout.SessionObj := { id := "sess_A", url := some "https://stripe/a" }

/-- Another Stripe session. -/
def sessB : Checkout.SessionObj := { id := "sess_B", url := some "https://stripe/b" }

/-- First checkout call at millisecond 1000. -/
def checkoutRun1 : Checkout.Response × DB × Option Checkout.SessionCreateParams :=
  Checkout.POST sampleEnv (Except.ok checkoutReq) none 1000 "idA" false
    (Except.ok sessA) emptyDB

/-- Second, distinct checkout call (different cart) in the same
millisecond, against the database left by the first. -/
def checkoutRun2 : Checkout.Response × DB × Option Checkout.SessionCreateParams :=
  Checkout.POST sampleEnv (Except.ok checkoutReq2) none 1000 "idB" false
    (Except.ok sessB) checkoutRun1.2.1

/-- A checkout call at millisecond 2000 with a different generated order
id, but the same external session outcome as checkoutRun1. -/
def checkoutRun3 : Checkout.Response × DB × Option Checkout.SessionCreateParams :=
  Checkout.POST sampleEnv (Except.ok checkoutReq) none 2000 "idB" false
    (Except.ok sessA) emptyDB

/-- A database already holding an order whose number was generated at
millisecond 1000. -/
def dupDB : DB :=
  { orders := [Checkout.pendingOrder "idA" none
      (Checkout.generateOrderNumber 1000) checkoutReq]
    order_items := [] }

/-! ## Helper lemmas -/

/-- round2 is the identity on values that are integer multiples of one
hundredth. -/
theorem round2_of_int (q : ℚ) (k : ℤ) (hq : q * 100 = k) : round2 q = q := by
  have hfloor : ⌊q * 100 + 1 / 2⌋ = k := by
    rw [hq]
    have h0 : ⌊(1 : ℚ) / 2⌋ = 0 := by norm_num
    calc ⌊(k : ℚ) + 1 / 2⌋ = ⌊(1 : ℚ) / 2 + k⌋ := by ring_nf
    _ = ⌊(1 : ℚ) / 2⌋ + k := Int.floor_add_int _ _
    _ = k := by rw [h0]; ring
  have h100 : (100 : ℚ) ≠ 0 := by norm_num
  rw [round2, jsRound_eq_floor, hfloor, ← hq]
  field_simp

/-- The raw cart subtotal is an integer number of cents whenever each
price is and each quantity is an integer. -/
theorem cartSubtotalRaw_cents (items : List CartItem)
    (h : ∀ i ∈ items, (∃ a : ℤ, i.price * 100 = a) ∧ ∃ b : ℤ, i.quantity = b) :
    ∃ k : ℤ, cartSubtotalRaw items * 100 = k := by
  rw [cartSubtotalRaw]
  suffices hgen : ∀ (l : List CartItem),
      (∀ i ∈ l, (∃ a : ℤ, i.price * 100 = a) ∧ ∃ b : ℤ, i.quantity = b) →
      ∀ (acc : ℚ), (∃ k : ℤ, acc * 100 = k) →
      ∃ k : ℤ, (l.foldl (fun sum item => sum + item.price * item.quantity) acc) * 100 = k by
    exact hgen items h 0 ⟨0, by norm_num⟩
  intro l
  induction l with
  | nil => intro _ acc hacc; simpa using hacc
  | cons i rest ih =>
      intro hl acc hacc
      obtain ⟨⟨a, ha⟩, b, hb⟩ := hl i (List.mem_cons_self i rest)
      have hrest : ∀ x ∈ rest, (∃ a : ℤ, x.price * 100 = a) ∧ ∃ b : ℤ, x.quantity = b :=
        fun x hx => hl x (List.mem_cons_of_mem i hx)
      obtain ⟨k, hk⟩ := hacc
      refine ih hrest (acc + i.price * i.quantity) ⟨k + a * b, ?_⟩
      push_cast
      rw [← hk, ← ha, ← hb]
      ring

/-- mapWithIndex preserves length. -/
theorem mapWithIndex_length {α : Type*} (f : Nat → α → α) :
    ∀ (start : Nat) (l : List α), (mapWithIndex f start l).length = l.length := by
  intro start l
  induction l generalizing start with
  | nil => rfl
  | cons a as ih => simp [mapWithIndex, ih]

/-- Pointwise description of mapWithIndex. -/
theorem mapWithIndex_getElem? {α : Type*} (f : Nat → α → α) :
    ∀ (l : List α) (start k : Nat),
      (mapWithIndex f start l)[k]? = (l[k]?).map (f (start + k)) := by
  intro l
  induction l with
  | nil => intro start k; simp [mapWithIndex]
  | cons a as ih =>
      intro start k
      cases k with
      | zero => simp [mapWithIndex]
      | succ k =>
          simp only [mapWithIndex, List.getElem?_cons_succ]
          rw [ih (start + 1) k]
          have harith : start + 1 + k = start + (k + 1) := by omega
          rw [harith]

/-- A successful jsFindIndex points at an element satisfying the
predicate. -/
theorem jsFindIndex_spec {α : Type*} (p : α → Bool) :
    ∀ (l : List α) (j : Nat), jsFindIndex p l = some j →
      ∃ a, l[j]? = some a ∧ p a = true := by
  intro l
  induction l with
  | nil => intro j h; simp [jsFindIndex] at h
  | cons a as ih =>
      intro j h
      by_cases hp : p a
      · simp only [jsFindIndex, if_pos hp] at h
        obtain rfl : (0 : Nat) = j := Option.some.inj h
        exact ⟨a, by simp, hp⟩
      · simp only [jsFindIndex, if_neg hp, Option.map_eq_some'] at h
        obtain ⟨j0, hj0, rfl⟩ := h
        obtain ⟨b, hb, hpb⟩ := ih j0 hj0
        exact ⟨b, by simpa using hb, hpb⟩

/-- One verified delivery of a completed-session event whose metadata
points at the single existing order: the order is overwritten with the
paid update, the metadata items are appended to order_items, and the
handler acknowledges with 200. -/
theorem webhook_step_existing
    (env : Env) (secret : String) (session : CheckoutSession) (md : Metadata)
    (l : List MetaItem) (now : Nat) (nid : String) (db : DB) (o : OrderRow)
    (hk : jsFalsyStr env.STRIPE_SECRET_KEY = false)
    (hw : env.STRIPE_WEBHOOK_SECRET = some secret)
    (hsne : secret ≠ "")
    (hu : jsFalsyStr env.NEXT_PUBLIC_SUPABASE_URL = false)
    (hr : jsFalsyStr env.SUPABASE_SERVICE_ROLE_KEY = false)
    (hmd : session.metadata = some md)
    (htype : md.type = some "shop_order")
    (hoid : md.order_id ≠ "")
    (hitems : md.items = some l)
    (hdb : db.orders = [o])
    (ho : o.id = md.order_id) :
    Webhook.POST env (RawBody.valid (StripeEvent.checkoutSessionCompleted session))
      (some { signed_secret := secret
              signed_body := RawBody.valid (StripeEvent.checkoutSessionCompleted session) })
      now nid noFaults db =
      ({ status := 200, body := Webhook.RespBody.received },
       { orders := [Webhook.paidUpdate session now o]
         order_items := db.order_items ++ Webhook.itemRowsFor md.order_id l }) := by
  have hwf : jsFalsyStr env.STRIPE_WEBHOOK_SECRET = false := by
    rw [hw]
    simp [jsFalsyStr, hsne]
  simp only [Webhook.POST, hk, hwf, hu, hr, Bool.or_self, Bool.false_or,
    Bool.or_false, Bool.false_eq_true, if_false, hw, Option.getD_some,
    constructEvent, and_self, if_true, eq_self_iff_true]
  have hws : jsFalsyStr (some secret) = false := by simp [jsFalsyStr, hsne]
  rw [hws]
  simp only [Bool.false_eq_true, if_false]
  simp only [Webhook.handleVerified, Webhook.handleCompleted, hmd, htype,
    hitems, noFaults, Bool.false_eq_true, if_false, if_pos hoid]
  simp only [if_true, Webhook.handleFailed, updateOrdersById, insertOrderItems,
    hdb, List.map_cons, List.map_nil, ho, eq_self_iff_true, if_true]

/-- One successful checkout call with Supabase configured and no
order-number conflict: a pending order is appended and the response
carries the session url and id together with the metadata bundle whose
order_id is the new row's id. -/
theorem checkout_success_insert
    (env : Env) (req : Checkout.RequestBody) (items : List Checkout.RequestItem)
    (user : Option Checkout.User) (t : Nat) (nid : String)
    (s : Checkout.SessionObj) (db : DB)
    (hk : jsFalsyStr env.STRIPE_SECRET_KEY = false)
    (hph : (env.STRIPE_SECRET_KEY == some "sua_sk_key_aqui") = false)
    (hconf : Checkout.isSupabaseConfigured env = true)
    (hitems : req.items = some items)
    (hne : items.length ≠ 0)
    (hnodup : db.orders.any (fun x =>
        x.id == nid || x.order_number == Checkout.generateOrderNumber t) = false) :
    Checkout.POST env (Except.ok req) user t nid false (Except.ok s) db =
      ({ status := 200, body := Checkout.RespBody.success s.url s.id },
       { orders := db.orders ++
           [Checkout.pendingOrder nid user (Checkout.generateOrderNumber t) req]
         order_items := db.order_items },
       some { line_items := items.map Checkout.lineItemOf ++
                (if 0 < req.shipping then [Checkout.shippingLineItem req.shipping]
                 else [])
              customer_email := jsOrNullOpt (user.bind fun u => u.email)
              metadata :=
                { type := some "shop_order", order_id := nid
                  order_number := Checkout.generateOrderNumber t
                  user_id := (user.map fun u => u.id).getD ""
                  items := some (items.map Checkout.toMetaItem) } }) := by
  have hnodup2 : db.orders.any (fun x =>
      x.id == (Checkout.pendingOrder nid user (Checkout.generateOrderNumber t) req).id ||
      x.order_number ==
        (Checkout.pendingOrder nid user (Checkout.generateOrderNumber t) req).order_number) =
      false := by
    simpa [Checkout.pendingOrder] using hnodup
  simp only [Checkout.POST, hk, hph, Bool.or_self, Bool.false_or, Bool.or_false,
    Bool.false_eq_true, if_false, hitems, if_neg hne, hconf, if_true,
    insertOrder, hnodup2, Option.getD_some]

/-- One checkout call hitting an order-number (or id) conflict on the
insert: the handler continues without an order row — the database is
unchanged, the metadata's order_id is empty, and the caller still gets
the success response. -/
theorem checkout_dup_insert
    (env : Env) (req : Checkout.RequestBody) (items : List Checkout.RequestItem)
    (user : Option Checkout.User) (t : Nat) (nid : String)
    (s : Checkout.SessionObj) (db : DB)
    (hk : jsFalsyStr env.STRIPE_SECRET_KEY = false)
    (hph : (env.STRIPE_SECRET_KEY == some "sua_sk_key_aqui") = false)
    (hconf : Checkout.isSupabaseConfigured env = true)
    (hitems : req.items = some items)
    (hne : items.length ≠ 0)
    (hdup : db.orders.any (fun x =>
        x.id == nid || x.order_number == Checkout.generateOrderNumber t) = true) :
    Checkout.POST env (Except.ok req) user t nid false (Except.ok s) db =
      ({ status := 200, body := Checkout.RespBody.success s.url s.id },
       db,
       some { line_items := items.map Checkout.lineItemOf ++
                (if 0 < req.shipping then [Checkout.shippingLineItem req.shipping]
                 else [])
              customer_email := jsOrNullOpt (user.bind fun u => u.email)
              metadata :=
                { type := some "shop_order", order_id := ""
                  order_number := Checkout.generateOrderNumber t
                  user_id := (user.map fun u => u.id).getD ""
                  items := some (items.map Checkout.toMetaItem) } }) := by
  have hdup2 : db.orders.any (fun x =>
      x.id == (Checkout.pendingOrder nid user (Checkout.generateOrderNumber t) req).id ||
      x.order_number ==
        (Checkout.pendingOrder nid user (Checkout.generateOrderNumber t) req).order_number) =
      true := by
    simpa [Checkout.pendingOrder] using hdup
  simp only [Checkout.POST, hk, hph, Bool.or_self, Bool.false_or, Bool.or_false,
    Bool.false_eq_true, if_false, hitems, if_neg hne, hconf, if_true,
    insertOrder, hdup2, Option.getD_some, Option.getD_none]

/-- Appending a digit multiplies the value by 36 and adds the digit. -/
theorem ofBase36_append_digit (l : List Nat) (d : Nat) :
    Checkout.ofBase36 (l ++ [d]) = Checkout.ofBase36 l * 36 + d := by
  simp [Checkout.ofBase36, List.foldl_append]

/-- ofBase36 is a left inverse of toBase36. -/
theorem ofBase36_toBase36 (n : Nat) :
    Checkout.ofBase36 (Checkout.toBase36 n) = n := by
  induction n using Nat.strong_induction_on with
  | _ n ih =>
      rw [Checkout.toBase36]
      by_cases h : n < 36
      · rw [if_pos h]
        simp [Checkout.ofBase36]
      · rw [if_neg h]
        rw [ofBase36_append_digit, ih (n / 36) (Nat.div_lt_self (by omega) (by omega))]
        omega

/-- Every digit produced by toBase36 is below 36. -/
theorem toBase36_digits_lt (n : Nat) : ∀ d ∈ Checkout.toBase36 n, d < 36 := by
  induction n using Nat.strong_induction_on with
  | _ n ih =>
      rw [Checkout.toBase36]
      by_cases h : n < 36
      · rw [if_pos h]
        intro d hd
        simp only [List.mem_singleton] at hd
        omega
      · rw [if_neg h]
        intro d hd
        rw [List.mem_append] at hd
        rcases hd with hd | hd
        · exact ih (n / 36) (Nat.div_lt_self (by omega) (by omega)) d hd
        · simp only [List.mem_singleton] at hd
          subst hd
          exact Nat.mod_lt n (by omega)

/-- base36Char is injective on base-36 digits. -/
theorem base36Char_inj :
    ∀ d1 < 36, ∀ d2 < 36,
      Checkout.base36Char d1 = Checkout.base36Char d2 → d1 = d2 := by decide

/-- Mapping base36Char over digit lists is injective. -/
theorem map_base36Char_inj :
    ∀ (l1 l2 : List Nat), (∀ d ∈ l1, d < 36) → (∀ d ∈ l2, d < 36) →
      l1.map Checkout.base36Char = l2.map Checkout.base36Char → l1 = l2 := by
  intro l1
  induction l1 with
  | nil =>
      intro l2 _ _ h
      cases l2 with
      | nil => rfl
      | cons b bs => simp at h
  | cons a as ih =>
      intro l2 h1 h2 h
      cases l2 with
      | nil => simp at h
      | cons b bs =>
          simp only [List.map_cons, List.cons.injEq] at h
          have ha : a < 36 := h1 a (List.mem_cons_self a as)
          have hb : b < 36 := h2 b (List.mem_cons_self b bs)
          have hab : a = b := base36Char_inj a ha b hb h.1
          have htail : as = bs :=
            ih bs (fun d hd => h1 d (List.mem_cons_of_mem a hd))
              (fun d hd => h2 d (List.mem_cons_of_mem b hd)) h.2
          rw [hab, htail]

/-- The generated order number determines the millisecond timestamp. -/
theorem generateOrderNumber_inj (t1 t2 : Nat)
    (h : Checkout.generateOrderNumber t1 = Checkout.generateOrderNumber t2) :
    t1 = t2 := by
  have hdata := congrArg String.data h
  simp only [Checkout.generateOrderNumber, String.data_append] at hdata
  have hmap : (Checkout.toBase36 t1).map Checkout.base36Char =
      (Checkout.toBase36 t2).map Checkout.base36Char :=
    List.append_cancel_left hdata
  have hdig : Checkout.toBase36 t1 = Checkout.toBase36 t2 :=
    map_base36Char_inj _ _ (toBase36_digits_lt t1) (toBase36_digits_lt t2) hmap
  have := congrArg Checkout.ofBase36 hdig
  rwa [ofBase36_toBase36, ofBase36_toBase36] at this

/-- The sample environment passes the route's Supabase-configured
test. -/
theorem sampleEnv_supabase_configured :
    Checkout.isSupabaseConfigured sampleEnv = true := by decide

/-! ## Claim theorems -/

/-- The exact pricing law of calculateTotals, for carts whose prices are
whole numbers of cents and whose quantities are integers. -/
theorem calculateTotals_law_aux (items : List CartItem)
    (h : ∀ i ∈ items, (∃ a : ℤ, i.price * 100 = a) ∧ ∃ b : ℤ, i.quantity = b) :
    (calculateTotals items).subtotal = cartSubtotalRaw items ∧
    (calculateTotals items).shipping =
      (if 50 ≤ (calculateTotals items).subtotal then 0 else 9.99) ∧
    (calculateTotals items).total =
      (calculateTotals items).subtotal + (calculateTotals items).shipping := by
  obtain ⟨k, hk⟩ := cartSubtotalRaw_cents items h
  have hsub : round2 (cartSubtotalRaw items) = cartSubtotalRaw items :=
    round2_of_int _ k hk
  have hship0 : round2 (0 : ℚ) = 0 := round2_of_int _ 0 (by norm_num)
  have hship999 : round2 (9.99 : ℚ) = 9.99 := round2_of_int _ 999 (by norm_num)
  have e1 : (calculateTotals items).subtotal = round2 (cartSubtotalRaw items) := rfl
  have e2 : (calculateTotals items).shipping =
      round2 (if (50 : ℚ) ≤ cartSubtotalRaw items then 0 else 9.99) := rfl
  have e3 : (calculateTotals items).total =
      round2 (cartSubtotalRaw items +
        (if (50 : ℚ) ≤ cartSubtotalRaw items then 0 else 9.99)) := rfl
  have hs : (calculateTotals items).subtotal = cartSubtotalRaw items := by
    rw [e1, hsub]
  by_cases h50 : (50 : ℚ) ≤ cartSubtotalRaw items
  · have hsh : (calculateTotals items).shipping = 0 := by
      rw [e2, if_pos h50, hship0]
    have hto : (calculateTotals items).total = cartSubtotalRaw items := by
      rw [e3, if_pos h50, add_zero, hsub]
    refine ⟨hs, ?_, ?_⟩
    · rw [hs, if_pos h50, hsh]
    · rw [hto, hs, hsh, add_zero]
  · have hsh : (calculateTotals items).shipping = 9.99 := by
      rw [e2, if_neg h50, hship999]
    have htotal_int : round2 (cartSubtotalRaw items + 9.99) =
        cartSubtotalRaw items + 9.99 := by
      refine round2_of_int _ (k + 999) ?_
      push_cast
      rw [← hk]
      norm_num
      ring
    have hto : (calculateTotals items).total = cartSubtotalRaw items + 9.99 := by
      rw [e3, if_neg h50, htotal_int]
    refine ⟨hs, ?_, ?_⟩
    · rw [hs, if_neg h50, hsh]
    · rw [hto, hs, hsh]

/-- The side condition of the pricing law for a one-item cart with a
two-decimal price. -/
theorem boundaryItem_cents (p : ℚ) (k : ℤ) (hk : p * 100 = k) :
    ∀ i ∈ [boundaryItem p],
      (∃ a : ℤ, i.price * 100 = a) ∧ ∃ b : ℤ, i.quantity = b := by
  intro i hi
  simp only [List.mem_singleton] at hi
  subst hi
  exact ⟨⟨k, hk⟩, 1, by norm_num [boundaryItem]⟩

/-- Claim C7: for every cart whose prices are whole numbers of cents and
whose quantities are integers, the recomputed totals satisfy the exact
pricing law: the stored subtotal is the raw sum (the half-up rounding is
exact), shipping is 0 when the subtotal reaches 50.00 and 9.99
otherwise, and total = subtotal + shipping; at the boundary, subtotal
49.99 gives shipping 9.99 and total 59.98 while subtotal 50.00 gives
shipping 0 and total 50.00. -/
theorem calculateTotals_pricing_law (items : List CartItem)
    (h : ∀ i ∈ items, (∃ a : ℤ, i.price * 100 = a) ∧ ∃ b : ℤ, i.quantity = b) :
    ((calculateTotals items).subtotal = cartSubtotalRaw items ∧
     (calculateTotals items).shipping =
       (if 50 ≤ (calculateTotals items).subtotal then 0 else 9.99) ∧
     (calculateTotals items).total =
       (calculateTotals items).subtotal + (calculateTotals items).shipping) ∧
    ((calculateTotals [boundaryItem 49.99]).subtotal = 49.99 ∧
     (calculateTotals [boundaryItem 49.99]).shipping = 9.99 ∧
     (calculateTotals [boundaryItem 49.99]).total = 59.98) ∧
    ((calculateTotals [boundaryItem 50]).subtotal = 50 ∧
     (calculateTotals [boundaryItem 50]).shipping = 0 ∧
     (calculateTotals [boundaryItem 50]).total = 50) := by
  refine ⟨calculateTotals_law_aux items h, ?_, ?_⟩
  · obtain ⟨h1, h2, h3⟩ :=
      calculateTotals_law_aux [boundaryItem 49.99]
        (boundaryItem_cents _ 4999 (by norm_num))
    have hraw : cartSubtotalRaw [boundaryItem 49.99] = 49.99 := by
      norm_num [cartSubtotalRaw, boundaryItem]
    rw [hraw] at h1
    rw [h1, if_neg (by norm_num : ¬ (50 : ℚ) ≤ 49.99)] at h2
    rw [h1, h2] at h3
    refine ⟨h1, h2, ?_⟩
    rw [h3]
    norm_num
  · obtain ⟨h1, h2, h3⟩ :=
      calculateTotals_law_aux [boundaryItem 50]
        (boundaryItem_cents _ 5000 (by norm_num))
    have hraw : cartSubtotalRaw [boundaryItem 50] = 50 := by
      norm_num [cartSubtotalRaw, boundaryItem]
    rw [hraw] at h1
    rw [h1, if_pos (by norm_num : (50 : ℚ) ≤ 50)] at h2
    rw [h1, h2] at h3
    refine ⟨h1, h2, ?_⟩
    rw [h3]
    norm_num

/-- Claim C1 (amended): re-delivery of the same verified
payment-succeeded event to an order referenced by its metadata is not
idempotent: every delivery re-applies the paid update — overwriting
paid_at with the delivery time — and appends a fresh copy of the
metadata's item rows, so N deliveries leave paid_at at the last delivery
time and N copies of the OrderItem rows (the status does settle at
paid). -/
theorem webhook_replay_accumulates
    (env : Env) (secret : String) (session : CheckoutSession) (md : Metadata)
    (l : List MetaItem) (nid : String)
    (hk : jsFalsyStr env.STRIPE_SECRET_KEY = false)
    (hw : env.STRIPE_WEBHOOK_SECRET = some secret)
    (hsne : secret ≠ "")
    (hu : jsFalsyStr env.NEXT_PUBLIC_SUPABASE_URL = false)
    (hr : jsFalsyStr env.SUPABASE_SERVICE_ROLE_KEY = false)
    (hmd : session.metadata = some md)
    (htype : md.type = some "shop_order")
    (hoid : md.order_id ≠ "")
    (hitems : md.items = some l) :
    ∀ (ts : List Nat) (t0 : Nat) (db : DB) (o : OrderRow),
      db.orders = [o] → o.id = md.order_id →
      (List.foldl
          (Webhook.replayStep env
            (RawBody.valid (StripeEvent.checkoutSessionCompleted session))
            (some { signed_secret := secret
                    signed_body :=
                      RawBody.valid (StripeEvent.checkoutSessionCompleted session) })
            nid)
          db (t0 :: ts)).orders =
        [Webhook.paidUpdate session ((t0 :: ts).getLast (List.cons_ne_nil t0 ts)) o] ∧
      (List.foldl
          (Webhook.replayStep env
            (RawBody.valid (StripeEvent.checkoutSessionCompleted session))
            (some { signed_secret := secret
                    signed_body :=
                      RawBody.valid (StripeEvent.checkoutSessionCompleted session) })
            nid)
          db (t0 :: ts)).order_items.length =
        db.order_items.length + (t0 :: ts).length * l.length := by
  intro ts
  induction ts with
  | nil =>
      intro t0 db o hdb ho
      have hstep := webhook_step_existing env secret session md l t0 nid db o
        hk hw hsne hu hr hmd htype hoid hitems hdb ho
      simp only [List.foldl_cons, List.foldl_nil, Webhook.replayStep, hstep]
      refine ⟨by simp, ?_⟩
      simp [Webhook.itemRowsFor]
  | cons t1 ts ih =>
      intro t0 db o hdb ho
      have hstep := webhook_step_existing env secret session md l t0 nid db o
        hk hw hsne hu hr hmd htype hoid hitems hdb ho
      have hord : (Webhook.replayStep env
          (RawBody.valid (StripeEvent.checkoutSessionCompleted session))
          (some { signed_secret := secret
                  signed_body :=
                    RawBody.valid (StripeEvent.checkoutSessionCompleted session) })
          nid db t0).orders = [Webhook.paidUpdate session t0 o] := by
        simp only [Webhook.replayStep, hstep]
      have hlen : (Webhook.replayStep env
          (RawBody.valid (StripeEvent.checkoutSessionCompleted session))
          (some { signed_secret := secret
                  signed_body :=
                    RawBody.valid (StripeEvent.checkoutSessionCompleted session) })
          nid db t0).order_items.length = db.order_items.length + l.length := by
        simp [Webhook.replayStep, hstep, Webhook.itemRowsFor]
      have hnext := ih t1
        (Webhook.replayStep env
          (RawBody.valid (StripeEvent.checkoutSessionCompleted session))
          (some { signed_secret := secret
                  signed_body :=
                    RawBody.valid (StripeEvent.checkoutSessionCompleted session) })
          nid db t0)
        (Webhook.paidUpdate session t0 o) hord ho
      rw [List.foldl_cons]
      have hcomp : ∀ x : Nat,
          Webhook.paidUpdate session x (Webhook.paidUpdate session t0 o) =
            Webhook.paidUpdate session x o := fun _ => rfl
      constructor
      · rw [hnext.1, hcomp]
        rw [List.getLast_cons (List.cons_ne_nil t1 ts)]
      · rw [hnext.2, hlen]
        have hm : (t0 :: t1 :: ts).length * l.length =
            (t1 :: ts).length * l.length + l.length := by
          simp [List.length_cons]
          ring
        rw [hm]
        omega

/-- Counterexample for C1: delivering the same verified
payment-succeeded event twice (times 1 and 2) to the sample pending
order leaves two copies of the single metadata item in order_items and
paid_at overwritten to the second delivery time. -/
theorem webhook_replay_not_idempotent_cex :
    replayOnce.order_items.length = 1 ∧
    replayTwice.order_items.length = 2 ∧
    replayOnce.orders.map OrderRow.paid_at = [some 1] ∧
    replayTwice.orders.map OrderRow.paid_at = [some 2] ∧
    replayTwice.orders.map OrderRow.status = ["paid"] := by
  have h1 := webhook_step_existing sampleEnv "whsec_1" sampleSession
    sampleMetadata [sampleMetaItem] 1 "gen1" sampleDB samplePendingOrder
    rfl rfl (by decide) rfl rfl rfl rfl (by decide) rfl rfl rfl
  have e1 : replayOnce =
      { orders := [Webhook.paidUpdate sampleSession 1 samplePendingOrder]
        order_items := sampleDB.order_items ++
          Webhook.itemRowsFor sampleMetadata.order_id [sampleMetaItem] } :=
    congrArg Prod.snd h1
  have h2 := webhook_step_existing sampleEnv "whsec_1" sampleSession
    sampleMetadata [sampleMetaItem] 2 "gen2" replayOnce
    (Webhook.paidUpdate sampleSession 1 samplePendingOrder)
    rfl rfl (by decide) rfl rfl rfl rfl (by decide) rfl
    (by rw [e1]) rfl
  have e2 : replayTwice =
      { orders := [Webhook.paidUpdate sampleSession 2
          (Webhook.paidUpdate sampleSession 1 samplePendingOrder)]
        order_items := replayOnce.order_items ++
          Webhook.itemRowsFor sampleMetadata.order_id [sampleMetaItem] } :=
    congrArg Prod.snd h2
  rw [e2, e1]
  simp [Webhook.itemRowsFor, Webhook.paidUpdate, sampleDB]

/-- Witness for C1 (amended): two deliveries at times 1 and 2 on the
sample database leave the order paid at time 2 with two-times-one item
rows. -/
theorem webhook_replay_accumulates_witness :
    (List.foldl (Webhook.replayStep sampleEnv sampleBody (some sampleSig) "gen1")
        sampleDB [1, 2]).orders =
      [Webhook.paidUpdate sampleSession 2 samplePendingOrder] ∧
    (List.foldl (Webhook.replayStep sampleEnv sampleBody (some sampleSig) "gen1")
        sampleDB [1, 2]).order_items.length =
      sampleDB.order_items.length + 2 * 1 :=
  webhook_replay_accumulates sampleEnv "whsec_1" sampleSession sampleMetadata
    [sampleMetaItem] "gen1" rfl rfl (by decide) rfl rfl rfl rfl (by decide) rfl
    [2] 1 sampleDB samplePendingOrder rfl rfl

/-- Claim C10: when addItem hits the variant_id of an existing entry,
only that entry's quantity is incremented; its name, color, size, price
and image stay those of the first insertion (whatever the new call
passes), and every other entry is untouched. -/
theorem addItem_existing_variant_frame (state : CartState) (item : AddItemInput)
    (j : Nat)
    (hfind : jsFindIndex (fun i => i.variant_id == item.variant_id) state.items =
      some j) :
    (addItem state item).items.length = state.items.length ∧
    (∀ k, k ≠ j → (addItem state item).items[k]? = state.items[k]?) ∧
    ∃ old, state.items[j]? = some old ∧
      (addItem state item).items[j]? =
        some { old with quantity := old.quantity + jsOr1 item.quantity } := by
  have hitems : (addItem state item).items =
      mapWithIndex
        (fun idx i =>
          if idx = j then { i with quantity := i.quantity + jsOr1 item.quantity }
          else i)
        0 state.items := by
    simp only [addItem, hfind]
    rfl
  refine ⟨?_, ?_, ?_⟩
  · rw [hitems, mapWithIndex_length]
  · intro k hk
    rw [hitems, mapWithIndex_getElem? _ _ 0 k]
    cases hsk : state.items[k]? with
    | none => rfl
    | some a => simp [Nat.zero_add, if_neg hk]
  · obtain ⟨old, hold, _⟩ :=
      jsFindIndex_spec (fun i => i.variant_id == item.variant_id) state.items j hfind
    refine ⟨old, hold, ?_⟩
    rw [hitems, mapWithIndex_getElem? _ _ 0 j, hold]
    simp

/-- Witness for C10: adding a conflicting item on variant v1 to the
sample cart leaves the size of the cart and the second entry intact. -/
theorem addItem_existing_variant_frame_witness :
    (addItem sampleState sampleAdd).items.length = sampleState.items.length ∧
    (addItem sampleState sampleAdd).items[1]? = sampleState.items[1]? := by
  have h := addItem_existing_variant_frame sampleState sampleAdd 0 (by rfl)
  exact ⟨h.1, h.2.1 1 (by decide)⟩

/-- The payment-failed branch's UPDATE payload names the cancelled_at
column, which the orders table does not declare, so the storage layer
rejects the statement without touching any row. -/
theorem cancelPayload_rejected (db : DB) (oid : String) (f : OrderRow → OrderRow) :
    updateOrdersChecked Webhook.cancelPayloadColumns db oid f =
      Except.error "PGRST204: could not find column in schema cache" := by
  have hall : Webhook.cancelPayloadColumns.all
      (fun c => ordersTableColumns.contains c) = false := by decide
  rw [updateOrdersChecked, hall]
  simp

/-- Claim C2: a verified payment-failed event delivered after a
payment-succeeded event for the same Order leaves the Order paid — the
webhook never reverts a paid Order to cancelled.  In this code the
guarantee is accidental: the cancel UPDATE's payload names the
undeclared cancelled_at column, the storage layer rejects it (PGRST204),
the handler only logs the error, and the whole database is returned
unchanged with a 200 acknowledgement. -/
theorem payment_failed_leaves_paid
    (env : Env) (secret : String) (pIntent : PaymentIntentObj) (md : Metadata)
    (now : Nat) (nid : String) (faults : DbFaults) (db : DB)
    (hk : jsFalsyStr env.STRIPE_SECRET_KEY = false)
    (hw : env.STRIPE_WEBHOOK_SECRET = some secret)
    (hsne : secret ≠ "")
    (hu : jsFalsyStr env.NEXT_PUBLIC_SUPABASE_URL = false)
    (hr : jsFalsyStr env.SUPABASE_SERVICE_ROLE_KEY = false)
    (hmd : pIntent.metadata = some md)
    (htype : md.type = some "shop_order")
    (hoid : md.order_id ≠ "") :
    Webhook.POST env (RawBody.valid (StripeEvent.paymentIntentPaymentFailed pIntent))
      (some { signed_secret := secret
              signed_body :=
                RawBody.valid (StripeEvent.paymentIntentPaymentFailed pIntent) })
      now nid faults db =
      ({ status := 200, body := Webhook.RespBody.received }, db) ∧
    ∀ o ∈ db.orders, o.status = "paid" →
      o ∈ (Webhook.POST env
        (RawBody.valid (StripeEvent.paymentIntentPaymentFailed pIntent))
        (some { signed_secret := secret
                signed_body :=
                  RawBody.valid (StripeEvent.paymentIntentPaymentFailed pIntent) })
        now nid faults db).2.orders ∧ o.status = "paid" := by
  have hwf : jsFalsyStr env.STRIPE_WEBHOOK_SECRET = false := by
    rw [hw]
    simp [jsFalsyStr, hsne]
  have hws : jsFalsyStr (some secret) = false := by simp [jsFalsyStr, hsne]
  have hmain : Webhook.POST env
      (RawBody.valid (StripeEvent.paymentIntentPaymentFailed pIntent))
      (some { signed_secret := secret
              signed_body :=
                RawBody.valid (StripeEvent.paymentIntentPaymentFailed pIntent) })
      now nid faults db =
      ({ status := 200, body := Webhook.RespBody.received }, db) := by
    simp only [Webhook.POST, hk, hwf, hu, hr, hws, Bool.or_self, Bool.false_or,
      Bool.or_false, Bool.false_eq_true, if_false, hw, Option.getD_some,
      constructEvent, and_self, if_true, eq_self_iff_true]
    simp only [Webhook.handleVerified, Webhook.handleCompleted,
      Webhook.handleFailed, hmd, htype, eq_self_iff_true, true_and,
      if_pos hoid, cancelPayload_rejected, ite_self]
  refine ⟨hmain, ?_⟩
  intro o ho hp
  rw [hmain]
  exact ⟨ho, hp⟩

/-- Witness for C2: the failed event applied to the paid sample order
answers 200 and leaves the database — the paid order included —
untouched. -/
theorem payment_failed_leaves_paid_witness :
    Webhook.POST sampleEnv sampleFailedBody (some sampleFailedSig) 5 "gen3"
        noFaults samplePaidDB =
      ({ status := 200, body := Webhook.RespBody.received }, samplePaidDB) :=
  (payment_failed_leaves_paid sampleEnv "whsec_1"
    { metadata := some sampleMetadata } sampleMetadata 5 "gen3" noFaults
    samplePaidDB rfl rfl (by decide) rfl rfl rfl rfl (by decide)).1

/-- Claim C3 (amended): the pending-to-paid update of the webhook is
keyed only on the order id — it is not conditional on the stored status:
every order whose id matches the metadata is rewritten with the paid
update whatever its current status, and the request is acknowledged with
200. -/
theorem paid_update_unconditional
    (env : Env) (secret : String) (session : CheckoutSession) (md : Metadata)
    (now : Nat) (nid : String) (db : DB)
    (hk : jsFalsyStr env.STRIPE_SECRET_KEY = false)
    (hw : env.STRIPE_WEBHOOK_SECRET = some secret)
    (hsne : secret ≠ "")
    (hu : jsFalsyStr env.NEXT_PUBLIC_SUPABASE_URL = false)
    (hr : jsFalsyStr env.SUPABASE_SERVICE_ROLE_KEY = false)
    (hmd : session.metadata = some md)
    (htype : md.type = some "shop_order")
    (hoid : md.order_id ≠ "") :
    ((Webhook.POST env (RawBody.valid (StripeEvent.checkoutSessionCompleted session))
        (some { signed_secret := secret
                signed_body :=
                  RawBody.valid (StripeEvent.checkoutSessionCompleted session) })
        now nid noFaults db).2).orders =
      db.orders.map (fun o =>
        if o.id = md.order_id then Webhook.paidUpdate session now o else o) ∧
    (Webhook.POST env (RawBody.valid (StripeEvent.checkoutSessionCompleted session))
        (some { signed_secret := secret
                signed_body :=
                  RawBody.valid (StripeEvent.checkoutSessionCompleted session) })
        now nid noFaults db).1 =
      { status := 200, body := Webhook.RespBody.received } := by
  have hwf : jsFalsyStr env.STRIPE_WEBHOOK_SECRET = false := by
    rw [hw]
    simp [jsFalsyStr, hsne]
  have hws : jsFalsyStr (some secret) = false := by simp [jsFalsyStr, hsne]
  simp only [Webhook.POST, hk, hwf, hu, hr, hws, Bool.or_self, Bool.false_or,
    Bool.or_false, Bool.false_eq_true, if_false, hw, Option.getD_some,
    constructEvent, and_self, if_true, eq_self_iff_true]
  simp only [Webhook.handleVerified, Webhook.handleCompleted, hmd, htype,
    noFaults, Bool.false_eq_true, if_false, if_pos hoid]
  cases hmi : md.items with
  | none =>
      simp [hmi, Webhook.handleFailed, updateOrdersById]
  | some items =>
      simp [hmi, Webhook.handleFailed, updateOrdersById, insertOrderItems]

/-- Witness for C3 (amended): the completed event applied to the
cancelled sample order rewrites it with the paid update. -/
theorem paid_update_unconditional_witness :
    ((Webhook.POST sampleEnv sampleBody (some sampleSig) 7 "gen4" noFaults
        sampleCancelledDB).2).orders =
      sampleCancelledDB.orders.map (fun o =>
        if o.id = "o1" then Webhook.paidUpdate sampleSession 7 o else o) ∧
    (Webhook.POST sampleEnv sampleBody (some sampleSig) 7 "gen4" noFaults
        sampleCancelledDB).1 =
      { status := 200, body := Webhook.RespBody.received } :=
  paid_update_unconditional sampleEnv "whsec_1" sampleSession sampleMetadata 7
    "gen4" sampleCancelledDB rfl rfl (by decide) rfl rfl rfl rfl (by decide)

/-- Counterexample for C3: the order o1 is cancelled, not pending, yet
processing the verified payment-succeeded event rewrites its status to
paid (stamping paid_at), contradicting the claim that a non-pending
order is left unchanged. -/
theorem paid_update_not_conditional_cex :
    sampleCancelledOrder.status = "cancelled" ∧
    paidOnCancelled.orders.map OrderRow.status = ["paid"] ∧
    paidOnCancelled.orders.map OrderRow.paid_at = [some 7] := by
  have h := webhook_step_existing sampleEnv "whsec_1" sampleSession
    sampleMetadata [sampleMetaItem] 7 "gen4" sampleCancelledDB
    sampleCancelledOrder rfl rfl (by decide) rfl rfl rfl rfl (by decide)
    rfl rfl rfl
  have e : paidOnCancelled =
      { orders := [Webhook.paidUpdate sampleSession 7 sampleCancelledOrder]
        order_items := sampleCancelledDB.order_items ++
          Webhook.itemRowsFor sampleMetadata.order_id [sampleMetaItem] } :=
    congrArg Prod.snd h
  refine ⟨rfl, ?_, ?_⟩ <;> (rw [e]; simp [Webhook.paidUpdate])

/-- Claim C4: a verified payment-succeeded event with the shop_order
discriminator and an empty order_id creates exactly one new order
directly in status paid — order number, subtotal and item rows all taken
from the metadata bundle (the grand total is taken from the session's
amount_total and falls back to the metadata subtotal when that is
absent) — and acknowledges with 200. -/
theorem webhook_fallback_creates_order
    (env : Env) (secret : String) (session : CheckoutSession) (md : Metadata)
    (l : List MetaItem) (now : Nat) (nid : String) (db : DB)
    (hk : jsFalsyStr env.STRIPE_SECRET_KEY = false)
    (hw : env.STRIPE_WEBHOOK_SECRET = some secret)
    (hsne : secret ≠ "")
    (hu : jsFalsyStr env.NEXT_PUBLIC_SUPABASE_URL = false)
    (hr : jsFalsyStr env.SUPABASE_SERVICE_ROLE_KEY = false)
    (hmd : session.metadata = some md)
    (htype : md.type = some "shop_order")
    (hoid : md.order_id = "")
    (hitems : md.items = some l)
    (hnodup : ∀ x ∈ db.orders, x.id ≠ nid ∧ x.order_number ≠ md.order_number) :
    Webhook.POST env (RawBody.valid (StripeEvent.checkoutSessionCompleted session))
      (some { signed_secret := secret
              signed_body :=
                RawBody.valid (StripeEvent.checkoutSessionCompleted session) })
      now nid noFaults db =
      ({ status := 200, body := Webhook.RespBody.received },
       { orders := db.orders ++ [Webhook.fallbackOrder session md now nid]
         order_items := db.order_items ++ Webhook.itemRowsFor nid l }) ∧
    (Webhook.fallbackOrder session md now nid).status = "paid" ∧
    (Webhook.fallbackOrder session md now nid).subtotal = Webhook.metaSubtotal l ∧
    (Webhook.fallbackOrder session md now nid).order_number = md.order_number ∧
    (Webhook.fallbackOrder session md now nid).paid_at = some now ∧
    (session.amount_total = none →
      (Webhook.fallbackOrder session md now nid).total = Webhook.metaSubtotal l) := by
  have hwf : jsFalsyStr env.STRIPE_WEBHOOK_SECRET = false := by
    rw [hw]
    simp [jsFalsyStr, hsne]
  have hws : jsFalsyStr (some secret) = false := by simp [jsFalsyStr, hsne]
  have hids : (Webhook.fallbackOrder session md now nid).id = nid := rfl
  have hnum : (Webhook.fallbackOrder session md now nid).order_number =
      md.order_number := rfl
  have hany : (db.orders.any (fun x =>
      x.id == (Webhook.fallbackOrder session md now nid).id ||
      x.order_number == (Webhook.fallbackOrder session md now nid).order_number)) =
      false := by
    rw [List.any_eq_false]
    intro x hx
    obtain ⟨h1, h2⟩ := hnodup x hx
    rw [hids, hnum]
    simp [h1, h2]
  refine ⟨?_, rfl, ?_, rfl, rfl, ?_⟩
  · simp only [Webhook.POST, hk, hwf, hu, hr, hws, Bool.or_self, Bool.false_or,
      Bool.or_false, Bool.false_eq_true, if_false, hw, Option.getD_some,
      constructEvent, and_self, if_true, eq_self_iff_true]
    simp only [Webhook.handleVerified, Webhook.handleCompleted, hmd, htype,
      hoid, ne_eq, not_true_eq_false, if_false, noFaults, Bool.false_eq_true,
      insertOrder, hany, hitems, insertOrderItems, if_true]
  · simp [Webhook.fallbackOrder, hitems]
  · intro hnone
    simp [Webhook.fallbackOrder, hitems, hnone]

/-- Witness for C4: the fallback event (no order row, metadata OS-2)
applied to the sample database appends exactly one paid order and its
item rows. -/
theorem webhook_fallback_creates_order_witness :
    Webhook.POST sampleEnv fallbackBody
        (some { signed_secret := "whsec_1", signed_body := fallbackBody }) 9
        "gen7" noFaults sampleDB =
      ({ status := 200, body := Webhook.RespBody.received },
       { orders := sampleDB.orders ++
           [Webhook.fallbackOrder fallbackSession fallbackMetadata 9 "gen7"]
         order_items := sampleDB.order_items ++
           Webhook.itemRowsFor "gen7" [sampleMetaItem] }) :=
  (webhook_fallback_creates_order sampleEnv "whsec_1" fallbackSession
    fallbackMetadata [sampleMetaItem] 9 "gen7" sampleDB rfl rfl (by decide)
    rfl rfl rfl rfl rfl rfl
    (by
      intro x hx
      rw [show sampleDB.orders = [samplePendingOrder] from rfl] at hx
      simp only [List.mem_singleton] at hx
      subst hx
      exact ⟨by decide, by decide⟩)).1

/-- Claim C5 (amended): persistence errors while updating the order or
inserting its items are only logged: for every combination of injected
database faults the webhook still acknowledges the verified shop_order
event with HTTP 200, so the processor never redelivers. -/
theorem webhook_acks_despite_db_errors
    (env : Env) (secret : String) (session : CheckoutSession) (md : Metadata)
    (now : Nat) (nid : String) (db : DB) (faults : DbFaults)
    (hk : jsFalsyStr env.STRIPE_SECRET_KEY = false)
    (hw : env.STRIPE_WEBHOOK_SECRET = some secret)
    (hsne : secret ≠ "")
    (hu : jsFalsyStr env.NEXT_PUBLIC_SUPABASE_URL = false)
    (hr : jsFalsyStr env.SUPABASE_SERVICE_ROLE_KEY = false)
    (hmd : session.metadata = some md)
    (htype : md.type = some "shop_order")
    (hoid : md.order_id ≠ "") :
    (Webhook.POST env (RawBody.valid (StripeEvent.checkoutSessionCompleted session))
        (some { signed_secret := secret
                signed_body :=
                  RawBody.valid (StripeEvent.checkoutSessionCompleted session) })
        now nid faults db).1 =
      { status := 200, body := Webhook.RespBody.received } := by
  have hwf : jsFalsyStr env.STRIPE_WEBHOOK_SECRET = false := by
    rw [hw]
    simp [jsFalsyStr, hsne]
  have hws : jsFalsyStr (some secret) = false := by simp [jsFalsyStr, hsne]
  simp only [Webhook.POST, hk, hwf, hu, hr, hws, Bool.or_self, Bool.false_or,
    Bool.or_false, Bool.false_eq_true, if_false, hw, Option.getD_some,
    constructEvent, and_self, if_true, eq_self_iff_true]
  simp only [Webhook.handleVerified, Webhook.handleCompleted, hmd, htype,
    if_pos hoid, if_true]

/-- Witness for C5 (amended): with the order update and the item insert
both failing, the webhook still answers 200. -/
theorem webhook_acks_despite_db_errors_witness :
    (Webhook.POST sampleEnv sampleBody (some sampleSig) 1 "gen5"
        { update_order := true, insert_order := false, insert_items := true,
          update_cancel := false } sampleDB).1 =
      { status := 200, body := Webhook.RespBody.received } :=
  webhook_acks_despite_db_errors sampleEnv "whsec_1" sampleSession
    sampleMetadata 1 "gen5" sampleDB
    { update_order := true, insert_order := false, insert_items := true,
      update_cancel := false }
    rfl rfl (by decide) rfl rfl rfl rfl (by decide)

/-- Counterexample for C5: when both persistence operations fail, the
database is untouched yet the handler responds 200 (received), not the
non-2xx the claim requires. -/
theorem persistence_error_returns_200_cex :
    (Webhook.POST sampleEnv sampleBody (some sampleSig) 1 "gen5"
        { update_order := true, insert_order := false, insert_items := true,
          update_cancel := false } sampleDB).1 =
      { status := 200, body := Webhook.RespBody.received } ∧
    (Webhook.POST sampleEnv sampleBody (some sampleSig) 1 "gen5"
        { update_order := true, insert_order := false, insert_items := true,
          update_cancel := false } sampleDB).2 = sampleDB := by
  constructor <;>
    simp [Webhook.POST, sampleEnv, sampleBody, sampleSig, sampleEvent,
      constructEvent, jsFalsyStr, Webhook.handleVerified,
      Webhook.handleCompleted, Webhook.handleFailed, sampleSession,
      sampleMetadata]

/-- Claim C6: a webhook request whose signature header was not produced
with the configured secret over the very body received is rejected with
the 400 Invalid-signature error and the database is returned exactly as
it was — zero state mutation. -/
theorem invalid_signature_no_mutation
    (env : Env) (secret : String) (body : RawBody) (sig : StripeSignature)
    (now : Nat) (nid : String) (faults : DbFaults) (db : DB)
    (hk : jsFalsyStr env.STRIPE_SECRET_KEY = false)
    (hw : env.STRIPE_WEBHOOK_SECRET = some secret)
    (hsne : secret ≠ "")
    (hu : jsFalsyStr env.NEXT_PUBLIC_SUPABASE_URL = false)
    (hr : jsFalsyStr env.SUPABASE_SERVICE_ROLE_KEY = false)
    (hbad : sig.signed_secret ≠ secret ∨ sig.signed_body ≠ body) :
    Webhook.POST env body (some sig) now nid faults db =
      ({ status := 400, body := Webhook.RespBody.errMsg "Invalid signature" },
       db) := by
  have hwf : jsFalsyStr env.STRIPE_WEBHOOK_SECRET = false := by
    rw [hw]
    simp [jsFalsyStr, hsne]
  have hws : jsFalsyStr (some secret) = false := by simp [jsFalsyStr, hsne]
  have hcond : ¬ (sig.signed_secret = secret ∧ sig.signed_body = body) := by
    intro hc
    rcases hbad with hb | hb
    · exact hb hc.1
    · exact hb hc.2
  simp only [Webhook.POST, hk, hwf, hu, hr, hws, Bool.or_self, Bool.false_or,
    Bool.or_false, Bool.false_eq_true, if_false, hw, Option.getD_some,
    constructEvent, if_neg hcond]

/-- Witness for C6: a signature produced with the wrong secret is
rejected with 400 and the sample database is unchanged. -/
theorem invalid_signature_no_mutation_witness :
    Webhook.POST sampleEnv sampleBody
        (some { signed_secret := "evil", signed_body := sampleBody }) 1 "gen6"
        noFaults sampleDB =
      ({ status := 400, body := Webhook.RespBody.errMsg "Invalid signature" },
       sampleDB) :=
  invalid_signature_no_mutation sampleEnv "whsec_1" sampleBody
    { signed_secret := "evil", signed_body := sampleBody } 1 "gen6" noFaults
    sampleDB rfl rfl (by decide) rfl rfl (Or.inl (by decide))

/-- Claim C8 (amended): the order number is a pure function of the
request's millisecond timestamp (OS- plus uppercase base-36 millis), so
numbers are distinct exactly across distinct milliseconds; when the
insert hits the database's uniqueness constraint (a colliding number),
the handler proceeds without an order row instead of retrying: the
database is unchanged, the session metadata carries an empty order_id
(only the colliding number), and the caller still receives the success
response. -/
theorem order_number_ms_injective_no_retry
    (env : Env) (req : Checkout.RequestBody) (items : List Checkout.RequestItem)
    (user : Option Checkout.User) (t : Nat) (nid : String)
    (s : Checkout.SessionObj) (db : DB)
    (hk : jsFalsyStr env.STRIPE_SECRET_KEY = false)
    (hph : (env.STRIPE_SECRET_KEY == some "sua_sk_key_aqui") = false)
    (hconf : Checkout.isSupabaseConfigured env = true)
    (hitems : req.items = some items)
    (hne : items.length ≠ 0)
    (hdup : db.orders.any (fun x =>
        x.id == nid || x.order_number == Checkout.generateOrderNumber t) = true) :
    (∀ t1 t2 : Nat,
      Checkout.generateOrderNumber t1 = Checkout.generateOrderNumber t2 →
      t1 = t2) ∧
    (Checkout.POST env (Except.ok req) user t nid false (Except.ok s) db).2.1 = db ∧
    ((Checkout.POST env (Except.ok req) user t nid false (Except.ok s) db).2.2.map
        (fun p => p.metadata.order_id)) = some "" ∧
    ((Checkout.POST env (Except.ok req) user t nid false (Except.ok s) db).2.2.map
        (fun p => p.metadata.order_number)) =
      some (Checkout.generateOrderNumber t) ∧
    (Checkout.POST env (Except.ok req) user t nid false (Except.ok s) db).1 =
      { status := 200, body := Checkout.RespBody.success s.url s.id } := by
  rw [checkout_dup_insert env req items user t nid s db hk hph hconf hitems
    hne hdup]
  exact ⟨generateOrderNumber_inj, rfl, rfl, rfl, rfl⟩

/-- Witness for C8 (amended): a checkout at millisecond 1000 against a
database already holding the number generated at 1000 leaves the table
unchanged and sends an empty order_id to Stripe. -/
theorem order_number_ms_injective_no_retry_witness :
    (∀ t1 t2 : Nat,
      Checkout.generateOrderNumber t1 = Checkout.generateOrderNumber t2 →
      t1 = t2) ∧
    (Checkout.POST sampleEnv (Except.ok checkoutReq2) none 1000 "idB" false
        (Except.ok sessB) dupDB).2.1 = dupDB ∧
    ((Checkout.POST sampleEnv (Except.ok checkoutReq2) none 1000 "idB" false
        (Except.ok sessB) dupDB).2.2.map
        (fun p => p.metadata.order_id)) = some "" ∧
    ((Checkout.POST sampleEnv (Except.ok checkoutReq2) none 1000 "idB" false
        (Except.ok sessB) dupDB).2.2.map
        (fun p => p.metadata.order_number)) =
      some (Checkout.generateOrderNumber 1000) ∧
    (Checkout.POST sampleEnv (Except.ok checkoutReq2) none 1000 "idB" false
        (Except.ok sessB) dupDB).1 =
      { status := 200, body := Checkout.RespBody.success sessB.url sessB.id } :=
  order_number_ms_injective_no_retry sampleEnv checkoutReq2 [checkoutItem2]
    none 1000 "idB" sessB dupDB rfl rfl sampleEnv_supabase_configured rfl
    (by decide) (by simp [dupDB, Checkout.pendingOrder])

/-- Counterexample for C8: two distinct initiation calls (different
carts) in the same millisecond: the first stores the generated number,
the second generates the very same number, its insert is rejected by the
uniqueness constraint, and the handler carries on without an order row
and without retrying — two concurrent orders do not get two distinct
numbers. -/
theorem order_number_collision_cex :
    checkoutRun1.2.1.orders.map OrderRow.order_number =
      [Checkout.generateOrderNumber 1000] ∧
    (checkoutRun2.2.2.map fun p => p.metadata.order_number) =
      some (Checkout.generateOrderNumber 1000) ∧
    checkoutRun2.2.1 = checkoutRun1.2.1 ∧
    (checkoutRun2.2.2.map fun p => p.metadata.order_id) = some "" ∧
    checkoutRun2.1.status = 200 := by
  have e1 := checkout_success_insert sampleEnv checkoutReq [checkoutItem] none
    1000 "idA" sessA emptyDB rfl rfl sampleEnv_supabase_configured rfl
    (by decide) rfl
  have hdb1 : checkoutRun1.2.1 =
      { orders := [Checkout.pendingOrder "idA" none
          (Checkout.generateOrderNumber 1000) checkoutReq]
        order_items := [] } := by
    rw [checkoutRun1, e1]
    simp [emptyDB]
  have e2 := checkout_dup_insert sampleEnv checkoutReq2 [checkoutItem2] none
    1000 "idB" sessB checkoutRun1.2.1 rfl rfl sampleEnv_supabase_configured rfl
    (by decide) (by rw [hdb1]; simp [Checkout.pendingOrder])
  refine ⟨?_, ?_, ?_, ?_, ?_⟩
  · rw [hdb1]
    simp [Checkout.pendingOrder]
  · rw [checkoutRun2, e2]
    rfl
  · rw [checkoutRun2, e2]
  · rw [checkoutRun2, e2]
    rfl
  · rw [checkoutRun2, e2]

/-- Claim C9 (amended): the order-session creation endpoint returns, on
success, status 200 with a body carrying only the payment-session
redirect url and the Stripe session id ({url, sessionId}) — the created
order's id and number are not part of the response; the failure paths
return an {error: string} payload (500 with the thrown message, 400
'Carrinho vazio' for a missing or empty cart). -/
theorem checkout_response_url_session
    (env : Env) (req : Checkout.RequestBody) (items : List Checkout.RequestItem)
    (user : Option Checkout.User) (t : Nat) (nid : String) (fault : Bool)
    (sres : Except String Checkout.SessionObj) (db : DB)
    (hk : jsFalsyStr env.STRIPE_SECRET_KEY = false)
    (hph : (env.STRIPE_SECRET_KEY == some "sua_sk_key_aqui") = false)
    (hitems : req.items = some items)
    (hne : items.length ≠ 0) :
    (∀ s, sres = Except.ok s →
      (Checkout.POST env (Except.ok req) user t nid fault sres db).1 =
        { status := 200, body := Checkout.RespBody.success s.url s.id }) ∧
    (∀ m, sres = Except.error m →
      (Checkout.POST env (Except.ok req) user t nid fault sres db).1 =
        { status := 500, body := Checkout.RespBody.failure m }) ∧
    (∀ m : String,
      (Checkout.POST env (Except.error m) user t nid fault sres db).1 =
        { status := 500, body := Checkout.RespBody.failure m }) ∧
    (∀ reqE : Checkout.RequestBody, reqE.items = none →
      (Checkout.POST env (Except.ok reqE) user t nid fault sres db).1 =
        { status := 400, body := Checkout.RespBody.failure "Carrinho vazio" }) := by
  refine ⟨?_, ?_, ?_, ?_⟩
  · intro s hs
    subst hs
    simp only [Checkout.POST, hk, hph, Bool.or_self, Bool.false_or,
      Bool.or_false, Bool.false_eq_true, if_false, hitems, if_neg hne]
  · intro m hm
    subst hm
    simp only [Checkout.POST, hk, hph, Bool.or_self, Bool.false_or,
      Bool.or_false, Bool.false_eq_true, if_false, hitems, if_neg hne]
  · intro m
    simp only [Checkout.POST, hk, hph, Bool.or_self, Bool.false_or,
      Bool.or_false, Bool.false_eq_true, if_false]
  · intro reqE hE
    simp only [Checkout.POST, hk, hph, Bool.or_self, Bool.false_or,
      Bool.or_false, Bool.false_eq_true, if_false, hE]

/-- Witness for C9 (amended): a successful call answers 200 with the
session url and id. -/
theorem checkout_response_url_session_witness :
    (Checkout.POST sampleEnv (Except.ok checkoutReq) none 1000 "idA" false
        (Except.ok sessA) emptyDB).1 =
      { status := 200, body := Checkout.RespBody.success sessA.url sessA.id } :=
  (checkout_response_url_session sampleEnv checkoutReq [checkoutItem] none
    1000 "idA" false (Except.ok sessA) emptyDB rfl rfl rfl (by decide)).1
    sessA rfl

/-- Counterexample for C9: two successful calls that persist orders with
different ids and different order numbers return byte-identical response
bodies — so the response cannot contain the order id or the order
number; its success body is only {url, sessionId}. -/
theorem checkout_response_lacks_order_fields_cex :
    checkoutRun1.1 =
      { status := 200
        body := Checkout.RespBody.success (some "https://stripe/a") "sess_A" } ∧
    checkoutRun3.1 = checkoutRun1.1 ∧
    Checkout.generateOrderNumber 1000 ≠ Checkout.generateOrderNumber 2000 ∧
    checkoutRun1.2.1.orders.map OrderRow.order_number =
      [Checkout.generateOrderNumber 1000] ∧
    checkoutRun3.2.1.orders.map OrderRow.order_number =
      [Checkout.generateOrderNumber 2000] := by
  have e1 := checkout_success_insert sampleEnv checkoutReq [checkoutItem]
    none 1000 "idA" sessA emptyDB rfl rfl sampleEnv_supabase_configured rfl
    (by decide) rfl
  have e3 := checkout_success_insert sampleEnv checkoutReq [checkoutItem]
    none 2000 "idB" sessA emptyDB rfl rfl sampleEnv_supabase_configured rfl
    (by decide) rfl
  refine ⟨?_, ?_, ?_, ?_, ?_⟩
  · rw [checkoutRun1, e1]
    rfl
  · rw [checkoutRun3, checkoutRun1, e1, e3]
  · intro h
    have := generateOrderNumber_inj 1000 2000 h
    omega
  · rw [checkoutRun1, e1]
    simp [Checkout.pendingOrder, emptyDB]
  · rw [checkoutRun3, e3]
    simp [Checkout.pendingOrder, emptyDB]

/-- Witness for C7: the pricing law evaluated on a one-item cart priced
29.99. -/
theorem calculateTotals_pricing_law_witness :
    (calculateTotals [boundaryItem 29.99]).total =
      (calculateTotals [boundaryItem 29.99]).subtotal +
        (calculateTotals [boundaryItem 29.99]).shipping :=
  (calculateTotals_pricing_law [boundaryItem 29.99]
    (by
      intro i hi
      simp only [List.mem_singleton] at hi
      subst hi
      exact ⟨⟨2999, by norm_num [boundaryItem]⟩, 1, by norm_num [boundaryItem]⟩)).1.2.2

end OnsiteShop
